import Mathlib

/-!
Verification of the `google-token-provider` crate: an OAuth2 JWT-bearer
token client that signs a time-bound assertion, exchanges it for an access
token over HTTP, and caches the result in a single slot.

The Rust source (`src/lib.rs`) is shallowly embedded below.  Time is
modelled the way `std::time` represents it: a `SystemTime` is the signed
number of nanoseconds since the Unix epoch (`Int`), a `Duration` is an
unsigned number of nanoseconds (`Nat`), and `Duration::as_secs` truncates.
The external collaborators (the `jsonwebtoken` encoder, the HTTP transport
and the JSON decoder of the response body) are modelled as an environment
record of fallible functions, and the three distinct `SystemTime::now()`
call sites (the expiry check in `get_token`, the `iat` sample in
`create_jwt`, the receipt-time sample in `parse_response`) are three
separate instants of that environment.
-/

deriving instance DecidableEq for Except

namespace GoogleTokenProvider

/-- Nanoseconds per second, the resolution of `std::time::Duration`. -/
def NANOS_PER_SEC : Nat := 1000000000

/-- `std::time::Duration`: a non-negative span, in nanoseconds. -/
structure Duration where
  nanos : Nat
deriving Repr, DecidableEq

/-- `Duration::from_secs`. -/
def Duration.from_secs (s : Nat) : Duration :=
  ⟨s * NANOS_PER_SEC⟩

/-- `Duration::add` (the `Add` impl used by `iat.add(...)` and `now + ...`). -/
def Duration.add (a b : Duration) : Duration :=
  ⟨a.nanos + b.nanos⟩

/-- `Duration::as_secs`: whole seconds, truncating. -/
def Duration.as_secs (d : Duration) : Nat :=
  d.nanos / NANOS_PER_SEC

/-- `SystemTime`: nanoseconds since the Unix epoch (negative = before 1970). -/
abbrev SystemTime := Int

/-- The errors the client can surface, one constructor per failure source
in `src/lib.rs` (all are `failure::Error` values in the source; the
constructors record which call produced them). -/
inductive TokenError where
  | clock
  | key_serialization (msg : String)
  | signing (msg : String)
  | transport (msg : String)
  | decode (msg : String)
deriving Repr, DecidableEq

/-- `SystemTime::duration_since(UNIX_EPOCH)`: fails exactly when the clock
reads an instant strictly before the epoch. -/
def duration_since_epoch (t : SystemTime) : Except TokenError Duration :=
  if t < 0 then Except.error TokenError.clock else Except.ok ⟨t.toNat⟩

/-- `openssl::rsa::Rsa<Private>`, seen through the one operation the client
uses: `private_key_to_der`, which yields the DER bytes or a key error. -/
structure RsaPrivate where
  private_key_to_der : Except String (List Nat)
deriving Repr, DecidableEq

/-- `Credentials` (src/lib.rs lines 18-22). -/
structure Credentials where
  private_key : RsaPrivate
  client_email : String
deriving Repr, DecidableEq

/-- `Claims` (src/lib.rs lines 24-31). -/
structure Claims where
  iss : String
  scope : String
  aud : String
  exp : Nat
  iat : Nat
deriving Repr, DecidableEq

/-- `TokenResponse` (src/lib.rs lines 33-38). -/
structure TokenResponse where
  access_token : String
  token_type : String
  expires_in : Nat
deriving Repr, DecidableEq

/-- `AccessToken` (src/lib.rs lines 49-53). -/
structure AccessToken where
  value : String
  expires : SystemTime
deriving Repr, DecidableEq

/-- `AccessToken::expired` (src/lib.rs lines 56-58):
`self.expires < SystemTime::now()`.  The `now` that the Rust code samples
internally is made an explicit argument. -/
def AccessToken.expired (t : AccessToken) (now : SystemTime) : Bool :=
  decide (t.expires < now)

/-- `TOKEN_URL` (src/lib.rs line 16). -/
def TOKEN_URL : String := "https://www.googleapis.com/oauth2/v4/token"

/-- The HTTP request built by `fetch_token`: method, target URL and the
form-encoded key/value pairs, in insertion order. -/
structure HttpRequest where
  method : String
  url : String
  form : List (String × String)
deriving Repr, DecidableEq

/-- The external world of one `get_token` call: the `jsonwebtoken::encode`
primitive, the HTTP transport (whose successful result is a response body
that JSON-decoding may still reject, hence the nested `Except`), and the
three instants at which `SystemTime::now()` is sampled. -/
structure Env where
  encode : Claims → List Nat → Except String String
  send : HttpRequest → Except String (Except String TokenResponse)
  check_time : SystemTime
  sign_time : SystemTime
  receipt_time : SystemTime

/-- `Client` (src/lib.rs lines 61-66); the `reqwest` handle lives in `Env`. -/
structure Client where
  credentials : Credentials
  scopes : String
  access_token : Option AccessToken

/-- `Client::new` (src/lib.rs lines 69-76): scopes are collected and joined
with `" "` (Rust `Vec::join`, i.e. `String.intercalate`); the cache slot
starts empty. -/
def Client.new (credentials : Credentials) (scopes : List String) : Client :=
  { credentials := credentials
    scopes := String.intercalate " " scopes
    access_token := none }

/-- The `Claims` value built inside `Client::create_jwt`
(src/lib.rs lines 123-131), as a function of the sampled `iat` duration. -/
def Client.create_jwt_claims (c : Client) (iat : Duration) : Claims :=
  let exp := iat.add (Duration.from_secs (60 * 60))
  { iss := c.credentials.client_email
    scope := c.scopes
    aud := TOKEN_URL
    exp := exp.as_secs
    iat := iat.as_secs }

/-- `Client::create_jwt` (src/lib.rs lines 121-135): sample the clock,
build the claims, serialize the key to DER, and encode (sign). -/
def Client.create_jwt (env : Env) (c : Client) : Except TokenError String :=
  match duration_since_epoch env.sign_time with
  | Except.error e => Except.error e
  | Except.ok iat =>
    match c.credentials.private_key.private_key_to_der with
    | Except.error e => Except.error (TokenError.key_serialization e)
    | Except.ok key =>
      match env.encode (c.create_jwt_claims iat) key with
      | Except.error e => Except.error (TokenError.signing e)
      | Except.ok token => Except.ok token

/-- `Client::parse_response` (src/lib.rs lines 109-119): JSON-decode the
body, then `expires = SystemTime::now() + Duration::from_secs(expires_in)`
where `now` is the receipt-time sample. -/
def Client.parse_response (receipt_time : SystemTime)
    (body : Except String TokenResponse) : Except TokenError AccessToken :=
  match body with
  | Except.error e => Except.error (TokenError.decode e)
  | Except.ok resp =>
    Except.ok
      { value := resp.access_token
        expires := receipt_time + ((Duration.from_secs resp.expires_in).nanos : Int) }

/-- `Client::fetch_token` (src/lib.rs lines 92-107): sign, then POST the
two form parameters to `TOKEN_URL` and parse the response.  The second
component records the request issued (`none` when signing failed and no
request was sent). -/
def Client.fetch_token (env : Env) (c : Client) :
    Except TokenError AccessToken × Option HttpRequest :=
  match c.create_jwt env with
  | Except.error e => (Except.error e, none)
  | Except.ok token =>
    let request : HttpRequest :=
      { method := "POST"
        url := TOKEN_URL
        form := [("grant_type", "urn:ietf:params:oauth:grant-type:jwt-bearer"),
                 ("assertion", token)] }
    match env.send request with
    | Except.error e => (Except.error (TokenError.transport e), some request)
    | Except.ok body => (Client.parse_response env.receipt_time body, some request)

/-- The observable outcome of one `get_token` call: the returned result,
the cache slot after the call, and the HTTP request issued, if any. -/
structure GetTokenResult where
  result : Except TokenError AccessToken
  cache : Option AccessToken
  request : Option HttpRequest
deriving Repr, DecidableEq

/-- The fetch-and-store arm of `Client::get_token`
(src/lib.rs lines 85-89): on success the fetched token replaces the cache
contents; on failure the cache is left as it was. -/
def Client.get_token_fetch (env : Env) (c : Client) : GetTokenResult :=
  match c.fetch_token env with
  | (Except.error e, request) =>
    { result := Except.error e, cache := c.access_token, request := request }
  | (Except.ok token, request) =>
    { result := Except.ok token, cache := some token, request := request }

/-- `Client::get_token` (src/lib.rs lines 78-90): return the cached token
if present and not expired, otherwise fetch. -/
def Client.get_token (env : Env) (c : Client) : GetTokenResult :=
  match c.access_token with
  | some token =>
    if token.expired env.check_time = false then
      { result := Except.ok token, cache := c.access_token, request := none }
    else
      c.get_token_fetch env
  | none => c.get_token_fetch env

/-- The spec's description of scope joining: the input strings in their
original order with a single space between adjacent elements. -/
def spec_joined_scopes : List String → String
  | [] => ""
  | [s] => s
  | s :: rest => s ++ " " ++ spec_joined_scopes rest

/-! Section: Concrete fixtures used by witnesses and counterexamples -/

/-- A test RSA key whose DER serialization succeeds. -/
def test_key : RsaPrivate := { private_key_to_der := Except.ok [48, 130, 4, 164] }

/-- Test credentials with the spec's example identity. -/
def test_credentials : Credentials :=
  { private_key := test_key, client_email := "svc@example.com" }

/-- The spec's example token response. -/
def test_response : TokenResponse :=
  { access_token := "tok123", token_type := "Bearer", expires_in := 3600 }

/-- A freshly constructed client (empty cache slot). -/
def empty_client : Client := Client.new test_credentials ["scope.a", "scope.b"]

/-- An environment in which signing and exchange both succeed. -/
def ok_env : Env :=
  { encode := fun _ _ => Except.ok "signed.jwt"
    send := fun _ => Except.ok (Except.ok test_response)
    check_time := 0
    sign_time := 0
    receipt_time := 0 }

/-- The token a successful fetch produces under `ok_env`:
`expires = receipt_time 0 + 3600 s`. -/
def fetched_token : AccessToken := { value := "tok123", expires := 3600000000000 }

/-- An environment in which the signing primitive fails. -/
def fail_sign_env : Env :=
  { encode := fun _ _ => Except.error "sign fail"
    send := fun _ => Except.error "no network"
    check_time := 0
    sign_time := 0
    receipt_time := 0 }

/-- A cached token that expires at instant 100. -/
def boundary_token : AccessToken := { value := "tok123", expires := 100 }

/-- A client whose cache holds `boundary_token`. -/
def boundary_client : Client :=
  { credentials := test_credentials
    scopes := "scope.a scope.b"
    access_token := some boundary_token }

/-- An environment whose clock reads exactly `boundary_token.expires`;
its externals are never consulted on the cache-hit path. -/
def boundary_env : Env :=
  { encode := fun _ _ => Except.error "unreachable"
    send := fun _ => Except.error "unreachable"
    check_time := 100
    sign_time := 100
    receipt_time := 100 }

/-- A cached token that expires at instant 1000. -/
def fresh_token : AccessToken := { value := "tok123", expires := 1000 }

/-- A client whose cache holds `fresh_token`. -/
def fresh_client : Client :=
  { credentials := test_credentials
    scopes := "scope.a scope.b"
    access_token := some fresh_token }

/-- An environment whose clock reads 500, strictly before
`fresh_token.expires`. -/
def fresh_env : Env :=
  { encode := fun _ _ => Except.error "unreachable"
    send := fun _ => Except.error "unreachable"
    check_time := 500
    sign_time := 500
    receipt_time := 500 }

/-- The request `fetch_token` issues under `ok_env` (the assertion is the
JWT produced by `ok_env.encode`). -/
def jwt_request : HttpRequest :=
  { method := "POST"
    url := TOKEN_URL
    form := [("grant_type", "urn:ietf:params:oauth:grant-type:jwt-bearer"),
             ("assertion", "signed.jwt")] }

/-! Section: Shared lemmas about the cache-hit and fetch paths -/

/-- On a cache hit (`now <= expires`), `get_token` returns the cached token
and issues no request. -/
theorem get_token_of_not_expired (env : Env) (c : Client) (tok : AccessToken)
    (hc : c.access_token = some tok) (h : env.check_time ≤ tok.expires) :
    c.get_token env =
      { result := Except.ok tok, cache := some tok, request := none } := by
  have hexp : tok.expired env.check_time = false := by
    simp [AccessToken.expired]
    exact h
  simp [Client.get_token, hc, hexp]

/-- On an expired cached token (`expires < now`), `get_token` takes the
fetch path. -/
theorem get_token_of_expired (env : Env) (c : Client) (tok : AccessToken)
    (hc : c.access_token = some tok) (h : tok.expires < env.check_time) :
    c.get_token env = c.get_token_fetch env := by
  have hexp : tok.expired env.check_time = true := by
    simp [AccessToken.expired]
    exact h
  simp [Client.get_token, hc, hexp]

/-- On an empty cache slot, `get_token` takes the fetch path. -/
theorem get_token_of_none (env : Env) (c : Client)
    (hc : c.access_token = none) :
    c.get_token env = c.get_token_fetch env := by
  simp [Client.get_token, hc]

/-! Section: C1 — expiry comparison -/

/-- Claim C1, counterexample.  The claim says a token is expired, and the
cached token is never returned, whenever `now >= expires`.  At the boundary
`now = expires = 100` the code's strict comparison (`expires < now`)
reports the token as not expired, and `get_token` returns the cached token
without issuing any request. -/
theorem c1_counterexample :
    (100 : Int) ≥ boundary_token.expires ∧
    boundary_token.expired 100 = false ∧
    boundary_env.check_time = boundary_token.expires ∧
    (boundary_client.get_token boundary_env).result = Except.ok boundary_token ∧
    (boundary_client.get_token boundary_env).request = none := by
  refine ⟨by decide, by decide, by decide, rfl, rfl⟩

/-- Claim C1, amended: expiry is strict.  `AccessToken::expired` returns
true exactly when `expires < now`; `get_token` returns the cached token
without fetching exactly when `now <= expires`, and triggers a fetch only
when `now > expires`. -/
theorem c1_expiry_strict (env : Env) (c : Client) (tok : AccessToken)
    (hc : c.access_token = some tok) :
    (∀ now : SystemTime, tok.expired now = true ↔ tok.expires < now) ∧
    (env.check_time ≤ tok.expires →
      c.get_token env =
        { result := Except.ok tok, cache := some tok, request := none }) ∧
    (tok.expires < env.check_time → c.get_token env = c.get_token_fetch env) := by
  refine ⟨fun now => by simp [AccessToken.expired], ?_, ?_⟩
  · exact fun h => get_token_of_not_expired env c tok hc h
  · exact fun h => get_token_of_expired env c tok hc h

/-- Witness for `c1_expiry_strict` at a concrete client and clock. -/
theorem c1_expiry_strict_witness :
    fresh_client.get_token fresh_env =
      { result := Except.ok fresh_token, cache := some fresh_token, request := none } :=
  (c1_expiry_strict fresh_env fresh_client fresh_token rfl).2.1 (by decide)

/-! Section: C4 — cache hit -/

/-- Claim C4: if the cache holds a token whose `expires` is strictly in the
future, `get_token` returns a copy of it with no request issued, and a
second call within the window returns the same token, again with no
request. -/
theorem c4_cache_hit (env env' : Env) (c : Client) (tok : AccessToken)
    (hc : c.access_token = some tok)
    (h1 : env.check_time < tok.expires) (h2 : env'.check_time < tok.expires) :
    c.get_token env =
      { result := Except.ok tok, cache := some tok, request := none } ∧
    Client.get_token env' { c with access_token := (c.get_token env).cache } =
      { result := Except.ok tok, cache := some tok, request := none } := by
  have first := get_token_of_not_expired env c tok hc (le_of_lt h1)
  refine ⟨first, ?_⟩
  have hc' : ({ c with access_token := (c.get_token env).cache } : Client).access_token
      = some tok := by
    rw [first]
  exact get_token_of_not_expired env' _ tok hc' (le_of_lt h2)

/-- Witness for `c4_cache_hit`: two calls at clock 500 on a token expiring
at 1000. -/
theorem c4_cache_hit_witness :
    fresh_client.get_token fresh_env =
      { result := Except.ok fresh_token, cache := some fresh_token, request := none } ∧
    Client.get_token fresh_env
        { fresh_client with access_token := (fresh_client.get_token fresh_env).cache } =
      { result := Except.ok fresh_token, cache := some fresh_token, request := none } :=
  c4_cache_hit fresh_env fresh_env fresh_client fresh_token rfl (by decide) (by decide)

/-! Section: C3 — failed fetch leaves the cache untouched -/

/-- Claim C3: when the fetch (signing or exchange) fails on a call that
takes the fetch path (empty cache slot, or expired cached token), the
cache slot is left exactly as it was before the call — an empty slot stays
empty, a stored token is neither cleared nor replaced — and the error is
propagated to the caller. -/
theorem c3_fetch_failure_preserves_cache (env : Env) (c : Client)
    (e : TokenError) (r : Option HttpRequest)
    (hfetch : c.fetch_token env = (Except.error e, r))
    (hmiss : c.access_token = none ∨
      ∃ tok, c.access_token = some tok ∧ tok.expires < env.check_time) :
    (c.get_token env).cache = c.access_token ∧
    (c.get_token env).result = Except.error e := by
  have hpath : c.get_token env = c.get_token_fetch env := by
    rcases hmiss with h | ⟨tok, hctok, h⟩
    · exact get_token_of_none env c h
    · exact get_token_of_expired env c tok hctok h
  rw [hpath]
  constructor <;> simp only [Client.get_token_fetch, hfetch]

/-- Witness for `c3_fetch_failure_preserves_cache`: a signing failure on an
empty cache. -/
theorem c3_fetch_failure_witness :
    (empty_client.get_token fail_sign_env).cache = empty_client.access_token ∧
    (empty_client.get_token fail_sign_env).result =
      Except.error (TokenError.signing "sign fail") :=
  c3_fetch_failure_preserves_cache fail_sign_env empty_client
    (TokenError.signing "sign fail") none rfl (Or.inl rfl)

/-! Section: C6 — single slot, replacement on success -/

/-- Claim C6: the cache is a single `Option` slot, so at most one token is
held at any instant, and a successful fetch stores its token by replacing
the slot's contents entirely: after two successful fetches the slot holds
exactly the second token. -/
theorem c6_replacement (env1 env2 : Env) (c : Client) (tok1 tok2 : AccessToken)
    (r1 r2 : Option HttpRequest)
    (h1 : c.fetch_token env1 = (Except.ok tok1, r1))
    (h2 : Client.fetch_token env2
        { c with access_token := (c.get_token_fetch env1).cache } =
          (Except.ok tok2, r2)) :
    (c.get_token_fetch env1).cache = some tok1 ∧
    (Client.get_token_fetch env2
        { c with access_token := (c.get_token_fetch env1).cache }).cache =
      some tok2 := by
  have e1 : (c.get_token_fetch env1).cache = some tok1 := by
    simp only [Client.get_token_fetch, h1]
  refine ⟨e1, ?_⟩
  rw [e1] at h2 ⊢
  simp only [Client.get_token_fetch, h2]

/-- Witness for `c6_replacement`: two successful fetches under `ok_env`. -/
theorem c6_replacement_witness :
    (empty_client.get_token_fetch ok_env).cache = some fetched_token ∧
    (Client.get_token_fetch ok_env
        { empty_client with
            access_token := (empty_client.get_token_fetch ok_env).cache }).cache =
      some fetched_token :=
  c6_replacement ok_env ok_env empty_client fetched_token fetched_token
    (some jwt_request) (some jwt_request) rfl rfl

/-! Section: C9 — cache holds the returned token -/

/-- Claim C9: after every successful `get_token` call, whether it hit the
cache or fetched, the cache slot holds exactly the token that was
returned. -/
theorem c9_success_caches_returned (env : Env) (c : Client) (tok : AccessToken)
    (h : (c.get_token env).result = Except.ok tok) :
    (c.get_token env).cache = some tok := by
  cases hc : c.access_token with
  | none =>
    simp only [Client.get_token, hc] at h ⊢
    cases hf : c.fetch_token env with
    | mk res req =>
      cases res with
      | error e => simp [Client.get_token_fetch, hf] at h
      | ok t => simp_all [Client.get_token_fetch, hf]
  | some t =>
    by_cases hexp : t.expired env.check_time = false
    · simp only [Client.get_token, hc, hexp, if_pos] at h ⊢
      simp_all
    · simp only [Client.get_token, hc, hexp, if_neg] at h ⊢
      cases hf : c.fetch_token env with
      | mk res req =>
        cases res with
        | error e => simp [Client.get_token_fetch, hf] at h
        | ok u => simp_all [Client.get_token_fetch, hf]

/-- Witness for `c9_success_caches_returned`: a fetch under `ok_env`. -/
theorem c9_success_caches_returned_witness :
    (empty_client.get_token ok_env).cache = some fetched_token :=
  c9_success_caches_returned ok_env empty_client fetched_token rfl

/-! Section: C2 — claims correctness -/

/-- Claim C2: with the clock fixed at `T` seconds since the epoch, the
claims object built and signed by `create_jwt` satisfies `iat = T`,
`exp = T + 3600`, `aud = TOKEN_URL`, `scope` is the client's joined scope
string, and `iss` is the credentials' client email; moreover `create_jwt`
hands exactly this claims object to the signing primitive. -/
theorem c2_claims_correct (env : Env) (c : Client) (key : List Nat) (T : Nat)
    (htime : env.sign_time = ((T * NANOS_PER_SEC : Nat) : Int))
    (hkey : c.credentials.private_key.private_key_to_der = Except.ok key) :
    (c.create_jwt_claims ⟨env.sign_time.toNat⟩).iat = T ∧
    (c.create_jwt_claims ⟨env.sign_time.toNat⟩).exp = T + 3600 ∧
    (c.create_jwt_claims ⟨env.sign_time.toNat⟩).aud = TOKEN_URL ∧
    (c.create_jwt_claims ⟨env.sign_time.toNat⟩).scope = c.scopes ∧
    (c.create_jwt_claims ⟨env.sign_time.toNat⟩).iss = c.credentials.client_email ∧
    c.create_jwt env =
      (match env.encode (c.create_jwt_claims ⟨env.sign_time.toNat⟩) key with
       | Except.error e => Except.error (TokenError.signing e)
       | Except.ok token => Except.ok token) := by
  have hnn : ¬ env.sign_time < 0 := by
    rw [htime]
    exact not_lt.mpr (Int.natCast_nonneg _)
  have hts : env.sign_time.toNat = T * NANOS_PER_SEC := by
    rw [htime]
    exact Int.toNat_natCast _
  refine ⟨?_, ?_, rfl, rfl, rfl, ?_⟩
  · show Duration.as_secs ⟨env.sign_time.toNat⟩ = T
    rw [hts]
    simp [Duration.as_secs, NANOS_PER_SEC]
  · show Duration.as_secs
        (Duration.add ⟨env.sign_time.toNat⟩ (Duration.from_secs (60 * 60))) = T + 3600
    rw [hts]
    simp only [Duration.as_secs, Duration.add, Duration.from_secs, NANOS_PER_SEC]
    omega
  · simp only [Client.create_jwt, duration_since_epoch]
    rw [if_neg hnn]
    simp only [hkey]

/-- Witness for `c2_claims_correct` at `T = 0` under `ok_env`. -/
theorem c2_claims_correct_witness :
    (empty_client.create_jwt_claims ⟨ok_env.sign_time.toNat⟩).iat = 0 ∧
    (empty_client.create_jwt_claims ⟨ok_env.sign_time.toNat⟩).exp = 0 + 3600 ∧
    (empty_client.create_jwt_claims ⟨ok_env.sign_time.toNat⟩).aud = TOKEN_URL ∧
    (empty_client.create_jwt_claims ⟨ok_env.sign_time.toNat⟩).scope
      = empty_client.scopes ∧
    (empty_client.create_jwt_claims ⟨ok_env.sign_time.toNat⟩).iss
      = empty_client.credentials.client_email ∧
    empty_client.create_jwt ok_env =
      (match ok_env.encode (empty_client.create_jwt_claims ⟨ok_env.sign_time.toNat⟩)
          [48, 130, 4, 164] with
       | Except.error e => Except.error (TokenError.signing e)
       | Except.ok token => Except.ok token) :=
  c2_claims_correct ok_env empty_client [48, 130, 4, 164] 0 (by decide) rfl

/-! Section: C5 — token fields from the response -/

/-- Claim C5: a successfully decoded response yields an `AccessToken` whose
`value` is the response's `access_token` field and whose `expires` is
`receipt_time + expires_in` seconds; inside `fetch_token` the response body
is parsed against the environment's receipt-time instant, the
`SystemTime::now()` sample taken in `parse_response` after the response is
obtained. -/
theorem c5_parse_response_fields (rt : SystemTime) (resp : TokenResponse)
    (env : Env) (c : Client) (jwt : String) (body : Except String TokenResponse)
    (hjwt : c.create_jwt env = Except.ok jwt)
    (hsend : env.send
        { method := "POST"
          url := TOKEN_URL
          form := [("grant_type", "urn:ietf:params:oauth:grant-type:jwt-bearer"),
                   ("assertion", jwt)] } = Except.ok body) :
    Client.parse_response rt (Except.ok resp) =
      Except.ok { value := resp.access_token
                  expires := rt + ((resp.expires_in * NANOS_PER_SEC : Nat) : Int) } ∧
    (c.fetch_token env).1 = Client.parse_response env.receipt_time body := by
  constructor
  · rfl
  · simp only [Client.fetch_token, hjwt, hsend]

/-- Witness for `c5_parse_response_fields` under `ok_env`. -/
theorem c5_parse_response_fields_witness :
    Client.parse_response 0 (Except.ok test_response) =
      Except.ok { value := test_response.access_token
                  expires :=
                    (0 : Int) + ((test_response.expires_in * NANOS_PER_SEC : Nat) : Int) } ∧
    (empty_client.fetch_token ok_env).1 =
      Client.parse_response ok_env.receipt_time (Except.ok test_response) :=
  c5_parse_response_fields 0 test_response ok_env empty_client "signed.jwt"
    (Except.ok test_response) rfl rfl

/-! Section: C7 — create_jwt error cases -/

/-- Claim C7: `create_jwt` returns an error exactly when the clock cannot
be expressed as a duration since the Unix epoch (instant before 1970), or
the private key cannot be serialized to DER, or the signing primitive
fails; otherwise it returns the signed JWT; and whatever error occurs is
propagated unchanged through `fetch_token`, with no retry. -/
theorem c7_create_jwt_error_cases (env : Env) (c : Client) :
    ((∃ e, c.create_jwt env = Except.error e) ↔
      (env.sign_time < 0 ∨
       (∃ msg, c.credentials.private_key.private_key_to_der = Except.error msg) ∨
       (∃ key msg, c.credentials.private_key.private_key_to_der = Except.ok key ∧
          env.encode (c.create_jwt_claims ⟨env.sign_time.toNat⟩) key =
            Except.error msg))) ∧
    (∀ key jwt, 0 ≤ env.sign_time →
      c.credentials.private_key.private_key_to_der = Except.ok key →
      env.encode (c.create_jwt_claims ⟨env.sign_time.toNat⟩) key = Except.ok jwt →
      c.create_jwt env = Except.ok jwt) ∧
    (∀ e, c.create_jwt env = Except.error e →
      (c.fetch_token env).1 = Except.error e) := by
  have hprop : ∀ e, c.create_jwt env = Except.error e →
      (c.fetch_token env).1 = Except.error e := by
    intro e he
    simp only [Client.fetch_token, he]
  have hok : ∀ key jwt, 0 ≤ env.sign_time →
      c.credentials.private_key.private_key_to_der = Except.ok key →
      env.encode (c.create_jwt_claims ⟨env.sign_time.toNat⟩) key = Except.ok jwt →
      c.create_jwt env = Except.ok jwt := by
    intro key jwt h0 hkey henc
    simp only [Client.create_jwt, duration_since_epoch]
    rw [if_neg (not_lt.mpr h0)]
    simp only [hkey, henc]
  refine ⟨?_, hok, hprop⟩
  by_cases hs : env.sign_time < 0
  · have hcj : c.create_jwt env = Except.error TokenError.clock := by
      simp [Client.create_jwt, duration_since_epoch, hs]
    exact ⟨fun _ => Or.inl hs, fun _ => ⟨TokenError.clock, hcj⟩⟩
  · cases hk : c.credentials.private_key.private_key_to_der with
    | error msg =>
      have hcj : c.create_jwt env
          = Except.error (TokenError.key_serialization msg) := by
        simp only [Client.create_jwt, duration_since_epoch]
        rw [if_neg hs]
        simp only [hk]
      exact ⟨fun _ => Or.inr (Or.inl ⟨msg, rfl⟩), fun _ => ⟨_, hcj⟩⟩
    | ok key =>
      cases he : env.encode (c.create_jwt_claims ⟨env.sign_time.toNat⟩) key with
      | error msg =>
        have hcj : c.create_jwt env = Except.error (TokenError.signing msg) := by
          simp only [Client.create_jwt, duration_since_epoch]
          rw [if_neg hs]
          simp only [hk, he]
        exact ⟨fun _ => Or.inr (Or.inr ⟨key, msg, rfl, he⟩), fun _ => ⟨_, hcj⟩⟩
      | ok jwt =>
        have hcj : c.create_jwt env = Except.ok jwt := by
          simp only [Client.create_jwt, duration_since_epoch]
          rw [if_neg hs]
          simp only [hk, he]
        constructor
        · rintro ⟨e, hee⟩
          rw [hcj] at hee
          exact Except.noConfusion hee
        · rintro (h | ⟨msg, hmsg⟩ | ⟨key', msg, hkey', henc⟩)
          · exact absurd h hs
          · exact Except.noConfusion hmsg
          · injection hkey' with hkk
            subst hkk
            rw [he] at henc
            exact Except.noConfusion henc

/-- Witness for `c7_create_jwt_error_cases`: a successful signing under
`ok_env`. -/
theorem c7_create_jwt_error_cases_witness :
    empty_client.create_jwt ok_env = Except.ok "signed.jwt" :=
  (c7_create_jwt_error_cases ok_env empty_client).2.1 [48, 130, 4, 164]
    "signed.jwt" (by decide) rfl rfl

/-! Section: C8 — request shape -/

/-- Claim C8: whenever a token fetch reaches the exchange step, it issues
exactly one POST to the fixed endpoint
`https://www.googleapis.com/oauth2/v4/token`, and the form body holds
exactly the two pairs `grant_type = urn:ietf:params:oauth:grant-type:jwt-bearer`
and `assertion =` the signed JWT. -/
theorem c8_request_shape (env : Env) (c : Client) (jwt : String)
    (hjwt : c.create_jwt env = Except.ok jwt) :
    (c.fetch_token env).2 = some
      { method := "POST"
        url := TOKEN_URL
        form := [("grant_type", "urn:ietf:params:oauth:grant-type:jwt-bearer"),
                 ("assertion", jwt)] } ∧
    TOKEN_URL = "https://www.googleapis.com/oauth2/v4/token" := by
  refine ⟨?_, rfl⟩
  simp only [Client.fetch_token, hjwt]
  rcases hsend : env.send
      { method := "POST"
        url := TOKEN_URL
        form := [("grant_type", "urn:ietf:params:oauth:grant-type:jwt-bearer"),
                 ("assertion", jwt)] } with msg | resp <;>
    simp [hsend]

/-- Witness for `c8_request_shape` under `ok_env`. -/
theorem c8_request_shape_witness :
    (empty_client.fetch_token ok_env).2 = some
      { method := "POST"
        url := TOKEN_URL
        form := [("grant_type", "urn:ietf:params:oauth:grant-type:jwt-bearer"),
                 ("assertion", "signed.jwt")] } ∧
    TOKEN_URL = "https://www.googleapis.com/oauth2/v4/token" :=
  c8_request_shape ok_env empty_client "signed.jwt" rfl

/-! Section: C10 — scope joining -/

/-- Stepping lemma: folding the accumulator of `String.intercalate.go` into
the head of the list preserves the spec's join. -/
theorem spec_joined_scopes_acc (acc a : String) (rest : List String) :
    spec_joined_scopes ((acc ++ " " ++ a) :: rest) =
      acc ++ " " ++ spec_joined_scopes (a :: rest) := by
  cases rest with
  | nil => rfl
  | cons b bs => simp [spec_joined_scopes, String.append_assoc]

/-- The worker of `String.intercalate` with separator `" "` computes the
spec's join of the accumulator consed onto the remaining list. -/
theorem intercalate_go_eq_spec (rest : List String) :
    ∀ acc : String, String.intercalate.go acc " " rest =
      spec_joined_scopes (acc :: rest) := by
  induction rest with
  | nil => intro acc; rfl
  | cons a as ih =>
    intro acc
    rw [String.intercalate.go, ih (acc ++ " " ++ a)]
    have hred : spec_joined_scopes (acc :: a :: as) =
        acc ++ " " ++ spec_joined_scopes (a :: as) := by
      simp [spec_joined_scopes]
    rw [hred]
    exact spec_joined_scopes_acc acc a as

/-- `String.intercalate " "` (Rust's `Vec::join(" ")`) computes the spec's
space-join. -/
theorem intercalate_space_eq_spec (l : List String) :
    String.intercalate " " l = spec_joined_scopes l := by
  cases l with
  | nil => rfl
  | cons a as => exact intercalate_go_eq_spec as a

/-- Claim C10: `Client::new` joins the scope strings in their original
order with a single space between adjacent elements; an empty scope list
yields the empty string; and the joined string is used verbatim as the
`scope` claim of every assertion. -/
theorem c10_scope_join (creds : Credentials) (scopes : List String) (d : Duration) :
    (Client.new creds scopes).scopes = spec_joined_scopes scopes ∧
    (Client.new creds []).scopes = "" ∧
    ((Client.new creds scopes).create_jwt_claims d).scope =
      spec_joined_scopes scopes := by
  refine ⟨intercalate_space_eq_spec scopes, rfl, ?_⟩
  show (Client.new creds scopes).scopes = spec_joined_scopes scopes
  exact intercalate_space_eq_spec scopes

end GoogleTokenProvider
